import Mathlib

/-!
Shallow embedding of `src/volume/gradient_volume.cpp` (the gradient-volume core of
the volvis project).  C++ `float` arithmetic is modelled as exact real arithmetic
(`ℝ`), `int` as `ℤ`, `std::vector<GradientVoxel>` as `List GradientVoxel`, and
`glm::vec3` as a record of three reals.  The unchecked `m_data[i]` read of the C++
is totalized with `List.getD _ zeroVoxel`; claims about out-of-bounds behaviour are
stated on the raw linear index versus the array length, never on the totalized
default.  Division by zero follows Lean's `1 / 0 = 0` convention; every theorem
below that evaluates the sampling code does so at coordinates whose corner
distances are nonzero, so this convention is never exercised.
-/

noncomputable section

namespace VolVis

/-- Real 3-vector mirroring `glm::vec3`. -/
structure Vec3 where
  x : ℝ
  y : ℝ
  z : ℝ

/-- Integer 3-vector mirroring `glm::ivec3` (the volume dimensions). -/
structure IVec3 where
  x : ℤ
  y : ℤ
  z : ℤ

instance : Add Vec3 := ⟨fun a b => ⟨a.x + b.x, a.y + b.y, a.z + b.z⟩⟩

instance : Sub Vec3 := ⟨fun a b => ⟨a.x - b.x, a.y - b.y, a.z - b.z⟩⟩

instance : SMul ℝ Vec3 := ⟨fun t v => ⟨t * v.x, t * v.y, t * v.z⟩⟩

/-- Euclidean norm, mirroring `glm::length`. -/
def Vec3.length (v : Vec3) : ℝ := Real.sqrt (v.x ^ 2 + v.y ^ 2 + v.z ^ 2)

/-- Euclidean distance, mirroring `glm::distance(p0, p1) = length(p1 - p0)`. -/
def Vec3.dist (p0 p1 : Vec3) : ℝ := Vec3.length (p1 - p0)

/-- A gradient voxel: unnormalized direction vector plus cached scalar magnitude
(struct `GradientVoxel` of the header, used throughout `gradient_volume.cpp`). -/
structure GradientVoxel where
  dir : Vec3
  magnitude : ℝ

/-- The zero gradient voxel `{ glm::vec3(0.0f), 0.0f }`. -/
def zeroVoxel : GradientVoxel := ⟨⟨0, 0, 0⟩, 0⟩

/-- The external scalar volume collaborator: `dims()` plus `getVoxel(x,y,z)`
(declared external in the spec; only these two members are consumed by the core). -/
structure Volume where
  dims : IVec3
  getVoxel : ℤ → ℤ → ℤ → ℝ

/-- The interior-cell condition of the triple loop in `computeGradientVolume`
(lines 40-42: `1 <= x < dim.x - 1` and similarly for y and z). -/
def interiorCell (dim : IVec3) (x y z : ℤ) : Prop :=
  1 ≤ x ∧ x < dim.x - 1 ∧ 1 ≤ y ∧ y < dim.y - 1 ∧ 1 ≤ z ∧ z < dim.z - 1

instance (dim : IVec3) (x y z : ℤ) : Decidable (interiorCell dim x y z) := by
  unfold interiorCell
  infer_instance

/-- Loop body of `computeGradientVolume` (lines 43-49): symmetric central
differences on the three axes, packed with the Euclidean norm of the result. -/
def centralDifferenceVoxel (volume : Volume) (x y z : ℤ) : GradientVoxel :=
  let gx := (volume.getVoxel (x + 1) y z - volume.getVoxel (x - 1) y z) / 2
  let gy := (volume.getVoxel x (y + 1) z - volume.getVoxel x (y - 1) z) / 2
  let gz := (volume.getVoxel x y (z + 1) - volume.getVoxel x y (z - 1)) / 2
  let v : Vec3 := ⟨gx, gy, gz⟩
  ⟨v, Vec3.length v⟩

/-- Embedding of `computeGradientVolume` (lines 35-54).  The C++ allocates a
value-initialized vector of `dim.x*dim.y*dim.z` zero voxels and then, for every
interior cell `(x,y,z)`, overwrites index `x + dim.x * (y + dim.y * z)` with the
central-difference voxel.  For positive dimensions the map
`(x,y,z) ↦ x + dim.x * (y + dim.y * z)` is a bijection from the index box onto
`[0, dim.x*dim.y*dim.z)` with inverse
`i ↦ (i % dim.x, (i / dim.x) % dim.y, i / (dim.x * dim.y))`, so the loop is
embedded position-wise: entry `i` of the built array holds the
central-difference voxel when its decoded cell is interior and the untouched
zero voxel otherwise.  (The position-wise reading back of the loop is proved
where used, via the div/mod decoding lemmas below.)  `gradientCellAt` is the
value of entry `i`. -/
def gradientCellAt (volume : Volume) (i : ℕ) : GradientVoxel :=
  let dim := volume.dims
  let x : ℤ := (i : ℤ) % dim.x
  let y : ℤ := ((i : ℤ) / dim.x) % dim.y
  let z : ℤ := (i : ℤ) / (dim.x * dim.y)
  if interiorCell dim x y z then centralDifferenceVoxel volume x y z else zeroVoxel

def computeGradientVolume (volume : Volume) : List GradientVoxel :=
  let dim := volume.dims
  (List.range (dim.x * dim.y * dim.z).toNat).map (gradientCellAt volume)

/-- Value of `computeMaxMagnitude` (lines 11-20): `std::max_element` under the
magnitude comparator, i.e. the maximum magnitude of the list.  The C++
dereferences the end iterator on an empty span (undefined); the model returns 0
there and every theorem about this function assumes a non-empty array. -/
def computeMaxMagnitude (data : List GradientVoxel) : ℝ :=
  match data with
  | [] => 0
  | v :: rest => rest.foldl (fun m w => max m w.magnitude) v.magnitude

/-- Value of `computeMinMagnitude` (lines 23-32): `std::min_element` under the
magnitude comparator, i.e. the minimum magnitude of the list (0 on the empty
array, which is undefined in the C++ and excluded by hypothesis in the theorems). -/
def computeMinMagnitude (data : List GradientVoxel) : ℝ :=
  match data with
  | [] => 0
  | v :: rest => rest.foldl (fun m w => min m w.magnitude) v.magnitude

/-- The `GradientVolume` object: dimensions, dense voxel array, cached statistics. -/
structure GradientVolume where
  m_dim : IVec3
  m_data : List GradientVoxel
  m_minMagnitude : ℝ
  m_maxMagnitude : ℝ

/-- The constructor `GradientVolume::GradientVolume(const Volume&)` (lines 56-62). -/
def GradientVolume.ofVolume (volume : Volume) : GradientVolume :=
  let data := computeGradientVolume volume
  ⟨volume.dims, data, computeMinMagnitude data, computeMaxMagnitude data⟩

/-- The raw linear index `x + m_dim.x * (y + m_dim.y * z)` of `getGradient`
(line 235). -/
def GradientVolume.gradientIndex (self : GradientVolume) (x y z : ℤ) : ℤ :=
  x + self.m_dim.x * (y + self.m_dim.y * z)

/-- Embedding of `GradientVolume::getGradient` (lines 233-237): the unchecked
`m_data[i]` read.  The C++ read is undefined outside the array; the model
totalizes it with the `zeroVoxel` default, and out-of-bounds claims are stated
on `gradientIndex` versus `m_data.length`, never on this default. -/
def GradientVolume.getGradient (self : GradientVolume) (x y z : ℤ) : GradientVoxel :=
  self.m_data.getD (self.gradientIndex x y z).toNat zeroVoxel

/-- The bounds test of `getGradientNearestNeighbor` (line 103):
`glm::any(glm::lessThan(coord, vec3(0))) || glm::any(glm::greaterThanEqual(coord, vec3(m_dim)))`. -/
def sampleOutOfRange (dim : IVec3) (coord : Vec3) : Prop :=
  coord.x < 0 ∨ coord.y < 0 ∨ coord.z < 0 ∨
    (dim.x : ℝ) ≤ coord.x ∨ (dim.y : ℝ) ≤ coord.y ∨ (dim.z : ℝ) ≤ coord.z

instance (dim : IVec3) (coord : Vec3) : Decidable (sampleOutOfRange dim coord) := by
  unfold sampleOutOfRange
  infer_instance

/-- Embedding of `GradientVolume::getGradientNearestNeighbor` (lines 101-111).
The C++ rounds with `static_cast<int>(f + 0.5f)` (truncation toward zero); on
the taken branch the bounds test has already ensured `f ≥ 0`, where truncation
of `f + 0.5` coincides with `⌊f + 1/2⌋`. -/
def GradientVolume.getGradientNearestNeighbor (self : GradientVolume) (coord : Vec3) :
    GradientVoxel :=
  if sampleOutOfRange self.m_dim coord then zeroVoxel
  else self.getGradient ⌊coord.x + 1 / 2⌋ ⌊coord.y + 1 / 2⌋ ⌊coord.z + 1 / 2⌋

/-- Embedding of `GradientVolume::linearInterpolate` (lines 221-230):
`g0 + factor * (g1 - g0)` on the magnitude channel and on the direction channel,
with the factor used exactly as passed (no clamping appears in the source). -/
def GradientVolume.linearInterpolate (g0 g1 : GradientVoxel) (factor : ℝ) : GradientVoxel :=
  ⟨g0.dir + factor • (g1.dir - g0.dir),
   g0.magnitude + factor * (g1.magnitude - g0.magnitude)⟩

/-- Embedding of `GradientVolume::getGradientLinearInterpolate` (lines 116-216),
kept line-for-line: floor/ceil corner coordinates, eight unchecked corner
fetches, reciprocal Euclidean distances as blending factors, and the factor
pattern `(f000, f001, f010, f011)` / `(f000, f001)` / `f000` of the three
`linearInterpolate` cascades.  Note the source contains no bounds test. -/
def GradientVolume.getGradientLinearInterpolate (self : GradientVolume) (coord : Vec3) :
    GradientVoxel :=
  let x0 : ℤ := ⌊coord.x⌋
  let x1 : ℤ := ⌈coord.x⌉
  let y0 : ℤ := ⌊coord.y⌋
  let y1 : ℤ := ⌈coord.y⌉
  let z0 : ℤ := ⌊coord.z⌋
  let z1 : ℤ := ⌈coord.z⌉
  let g000 := self.getGradient x0 y0 z0
  let g001 := self.getGradient x0 y0 z1
  let g010 := self.getGradient x0 y1 z0
  let g011 := self.getGradient x0 y1 z1
  let g100 := self.getGradient x1 y0 z0
  let g101 := self.getGradient x1 y0 z1
  let g110 := self.getGradient x1 y1 z0
  let g111 := self.getGradient x1 y1 z1
  let p000 : Vec3 := ⟨(x0 : ℝ), (y0 : ℝ), (z0 : ℝ)⟩
  let p001 : Vec3 := ⟨(x0 : ℝ), (y0 : ℝ), (z1 : ℝ)⟩
  let p010 : Vec3 := ⟨(x0 : ℝ), (y1 : ℝ), (z0 : ℝ)⟩
  let p011 : Vec3 := ⟨(x0 : ℝ), (y1 : ℝ), (z1 : ℝ)⟩
  let p100 : Vec3 := ⟨(x1 : ℝ), (y0 : ℝ), (z0 : ℝ)⟩
  let p101 : Vec3 := ⟨(x1 : ℝ), (y0 : ℝ), (z1 : ℝ)⟩
  let p110 : Vec3 := ⟨(x1 : ℝ), (y1 : ℝ), (z0 : ℝ)⟩
  let p111 : Vec3 := ⟨(x1 : ℝ), (y1 : ℝ), (z1 : ℝ)⟩
  let f000 := 1 / Vec3.dist coord p000
  let f001 := 1 / Vec3.dist coord p001
  let f010 := 1 / Vec3.dist coord p010
  let f011 := 1 / Vec3.dist coord p011
  let g00 := GradientVolume.linearInterpolate ⟨g000.dir, g000.magnitude⟩
    ⟨g001.dir, g001.magnitude⟩ f000
  let g01 := GradientVolume.linearInterpolate ⟨g010.dir, g010.magnitude⟩
    ⟨g011.dir, g011.magnitude⟩ f001
  let g10 := GradientVolume.linearInterpolate ⟨g100.dir, g100.magnitude⟩
    ⟨g101.dir, g101.magnitude⟩ f010
  let g11 := GradientVolume.linearInterpolate ⟨g110.dir, g110.magnitude⟩
    ⟨g111.dir, g111.magnitude⟩ f011
  let g0 := GradientVolume.linearInterpolate g00 g01 f000
  let g1 := GradientVolume.linearInterpolate g10 g11 f001
  GradientVolume.linearInterpolate g0 g1 f000

/-- The eight raw linear indices fetched by `getGradientLinearInterpolate`
(lines 127-134), in source order `g000, g001, g010, g011, g100, g101, g110, g111`. -/
def GradientVolume.trilinearCornerIndices (self : GradientVolume) (coord : Vec3) : List ℤ :=
  let x0 : ℤ := ⌊coord.x⌋
  let x1 : ℤ := ⌈coord.x⌉
  let y0 : ℤ := ⌊coord.y⌋
  let y1 : ℤ := ⌈coord.y⌉
  let z0 : ℤ := ⌊coord.z⌋
  let z1 : ℤ := ⌈coord.z⌉
  [self.gradientIndex x0 y0 z0, self.gradientIndex x0 y0 z1,
   self.gradientIndex x0 y1 z0, self.gradientIndex x0 y1 z1,
   self.gradientIndex x1 y0 z0, self.gradientIndex x1 y0 z1,
   self.gradientIndex x1 y1 z0, self.gradientIndex x1 y1 z1]

/-- The interpolation-mode enumeration of the header (`NearestNeighbour`,
`Linear`, `Cubic`); the `default:` branch of the C++ switch throws and is
unrepresentable in this closed enumeration. -/
inductive InterpolationMode where
  | NearestNeighbour : InterpolationMode
  | Linear : InterpolationMode
  | Cubic : InterpolationMode

/-- Embedding of `GradientVolume::getGradientInterpolate` (lines 80-97); the
mutable `interpolationMode` member (declared in the header, outside `src/`) is
passed explicitly. -/
def GradientVolume.getGradientInterpolate (self : GradientVolume)
    (mode : InterpolationMode) (coord : Vec3) : GradientVoxel :=
  match mode with
  | InterpolationMode.NearestNeighbour => self.getGradientNearestNeighbor coord
  | InterpolationMode.Linear => self.getGradientLinearInterpolate coord
  | InterpolationMode.Cubic => self.getGradientLinearInterpolate coord

/-- Concrete 3×3×3 test volume with scalar field `V(x,y,z) = x` (§8 scenario). -/
def volX3 : Volume := ⟨⟨3, 3, 3⟩, fun x _ _ => (x : ℝ)⟩

/-- Gradient volume built from `volX3`. -/
def gv3 : GradientVolume := GradientVolume.ofVolume volX3

/-- Concrete 5×5×5 test volume with scalar field `V(x,y,z) = x` (§8 scenario). -/
def volX5 : Volume := ⟨⟨5, 5, 5⟩, fun x _ _ => (x : ℝ)⟩

/-- Gradient volume built from `volX5`. -/
def gv5 : GradientVolume := GradientVolume.ofVolume volX5

/-! ### Helper lemmas -/

theorem Vec3.add_def (a b : Vec3) : a + b = ⟨a.x + b.x, a.y + b.y, a.z + b.z⟩ := rfl

theorem Vec3.sub_def (a b : Vec3) : a - b = ⟨a.x - b.x, a.y - b.y, a.z - b.z⟩ := rfl

theorem Vec3.smul_def (t : ℝ) (v : Vec3) : t • v = ⟨t * v.x, t * v.y, t * v.z⟩ := rfl

theorem Vec3.length_zero : Vec3.length ⟨0, 0, 0⟩ = 0 := by
  simp [Vec3.length]

theorem linearInterpolate_self (g : GradientVoxel) (f : ℝ) :
    GradientVolume.linearInterpolate g g f = g := by
  cases g with
  | mk dir mag =>
    cases dir
    simp only [GradientVolume.linearInterpolate, Vec3.add_def, Vec3.sub_def, Vec3.smul_def,
      Vec3.mk.injEq, GradientVoxel.mk.injEq]
    refine ⟨⟨by ring, by ring, by ring⟩, by ring⟩

/-- Decoding the linear index `x + dim.x * (y + dim.y * z)` of a cell inside the
index box recovers the cell, and the index lies in `[0, dim.x*dim.y*dim.z)`. -/
theorem encode_decode (dim : IVec3) (x y z : ℤ)
    (hx0 : 0 ≤ x) (hx1 : x < dim.x) (hy0 : 0 ≤ y) (hy1 : y < dim.y)
    (hz0 : 0 ≤ z) (hz1 : z < dim.z) :
    0 ≤ x + dim.x * (y + dim.y * z) ∧
    x + dim.x * (y + dim.y * z) < dim.x * dim.y * dim.z ∧
    (x + dim.x * (y + dim.y * z)) % dim.x = x ∧
    ((x + dim.x * (y + dim.y * z)) / dim.x) % dim.y = y ∧
    (x + dim.x * (y + dim.y * z)) / (dim.x * dim.y) = z := by
  have hdx : 0 < dim.x := lt_of_le_of_lt hx0 hx1
  have hdy : 0 < dim.y := lt_of_le_of_lt hy0 hy1
  have hdz : 0 < dim.z := lt_of_le_of_lt hz0 hz1
  have hyz0 : 0 ≤ y + dim.y * z := by positivity
  have hyz1 : y + dim.y * z < dim.y * dim.z := by nlinarith
  have hxy1 : x + dim.x * y < dim.x * dim.y := by nlinarith
  refine ⟨by positivity, by nlinarith, ?_, ?_, ?_⟩
  · rw [Int.add_mul_emod_self_left, Int.emod_eq_of_lt hx0 hx1]
  · rw [Int.add_mul_ediv_left x (y + dim.y * z) hdx.ne.symm,
      Int.ediv_eq_zero_of_lt hx0 hx1, zero_add,
      Int.add_mul_emod_self_left, Int.emod_eq_of_lt hy0 hy1]
  · rw [show x + dim.x * (y + dim.y * z) = (x + dim.x * y) + dim.x * dim.y * z by ring,
      Int.add_mul_ediv_left (x + dim.x * y) z (by positivity),
      Int.ediv_eq_zero_of_lt (by positivity) hxy1, zero_add]

/-- Reading back the constructed array at the linear index of an in-box cell
yields the central-difference voxel on interior cells and the untouched zero
voxel elsewhere. -/
theorem computeGradientVolume_getD (vol : Volume) (x y z : ℤ)
    (hx0 : 0 ≤ x) (hx1 : x < vol.dims.x) (hy0 : 0 ≤ y) (hy1 : y < vol.dims.y)
    (hz0 : 0 ≤ z) (hz1 : z < vol.dims.z) :
    (computeGradientVolume vol).getD (x + vol.dims.x * (y + vol.dims.y * z)).toNat zeroVoxel
      = if interiorCell vol.dims x y z then centralDifferenceVoxel vol x y z
        else zeroVoxel := by
  obtain ⟨hi0, hiN, hmx, hmy, hmz⟩ := encode_decode vol.dims x y z hx0 hx1 hy0 hy1 hz0 hz1
  set i : ℤ := x + vol.dims.x * (y + vol.dims.y * z) with hi
  have hN : 0 < vol.dims.x * vol.dims.y * vol.dims.z := lt_of_le_of_lt hi0 hiN
  have htoNat : i.toNat < (vol.dims.x * vol.dims.y * vol.dims.z).toNat :=
    (Int.toNat_lt_toNat hN).mpr hiN
  have hcast : ((i.toNat : ℤ)) = i := Int.toNat_of_nonneg hi0
  rw [computeGradientVolume, List.getD_eq_getElem?_getD, List.getElem?_map,
    List.getElem?_range htoNat]
  simp only [Option.map_some', Option.getD_some, gradientCellAt, hcast, hmx, hmy, hmz]

/-- `getGradient` on a constructed gradient volume, at any cell of the index box. -/
theorem getGradient_ofVolume (vol : Volume) (x y z : ℤ)
    (hx0 : 0 ≤ x) (hx1 : x < vol.dims.x) (hy0 : 0 ≤ y) (hy1 : y < vol.dims.y)
    (hz0 : 0 ≤ z) (hz1 : z < vol.dims.z) :
    (GradientVolume.ofVolume vol).getGradient x y z
      = if interiorCell vol.dims x y z then centralDifferenceVoxel vol x y z
        else zeroVoxel := by
  rw [GradientVolume.ofVolume, GradientVolume.getGradient, GradientVolume.gradientIndex]
  exact computeGradientVolume_getD vol x y z hx0 hx1 hy0 hy1 hz0 hz1

theorem computeGradientVolume_length (vol : Volume) :
    (computeGradientVolume vol).length
      = (vol.dims.x * vol.dims.y * vol.dims.z).toNat := by
  simp [computeGradientVolume]

/-- Every entry of the constructed array is either a central-difference voxel or
the zero voxel; in both cases the cached magnitude is the Euclidean norm of the
direction. -/
theorem computeGradientVolume_mem (vol : Volume) (v : GradientVoxel)
    (hv : v ∈ computeGradientVolume vol) :
    (∃ x y z, interiorCell vol.dims x y z ∧ v = centralDifferenceVoxel vol x y z) ∨
      v = zeroVoxel := by
  rw [computeGradientVolume] at hv
  simp only [List.mem_map, List.mem_range] at hv
  obtain ⟨i, -, hfi⟩ := hv
  rw [← hfi]
  simp only [gradientCellAt]
  by_cases hint : interiorCell vol.dims ((i : ℤ) % vol.dims.x)
      (((i : ℤ) / vol.dims.x) % vol.dims.y) ((i : ℤ) / (vol.dims.x * vol.dims.y))
  · rw [if_pos hint]
    exact Or.inl ⟨_, _, _, hint, rfl⟩
  · rw [if_neg hint]
    exact Or.inr rfl

theorem magnitude_eq_length_of_mem (vol : Volume) (v : GradientVoxel)
    (hv : v ∈ computeGradientVolume vol) : v.magnitude = Vec3.length v.dir := by
  rcases computeGradientVolume_mem vol v hv with ⟨x, y, z, -, hc⟩ | hz
  · rw [hc]; rfl
  · rw [hz, zeroVoxel, Vec3.length_zero]

theorem sqrt_eq_of_sq (A c : ℝ) (hc : 0 ≤ c) (h : A = c ^ 2) : Real.sqrt A = c := by
  rw [h]
  exact Real.sqrt_sq hc

theorem Vec3.dist_eval (a b : Vec3) :
    Vec3.dist a b = Real.sqrt ((b.x - a.x) ^ 2 + (b.y - a.y) ^ 2 + (b.z - a.z) ^ 2) := rfl

theorem le_foldl_max (l : List GradientVoxel) (a : ℝ) :
    a ≤ l.foldl (fun m w => max m w.magnitude) a := by
  induction l generalizing a with
  | nil => exact le_refl a
  | cons v rest ih =>
    simp only [List.foldl_cons]
    exact le_trans (le_max_left a v.magnitude) (ih (max a v.magnitude))

theorem mem_le_foldl_max (l : List GradientVoxel) (a : ℝ) (v : GradientVoxel) :
    v ∈ l → v.magnitude ≤ l.foldl (fun m w => max m w.magnitude) a := by
  induction l generalizing a with
  | nil => intro hv; cases hv
  | cons w rest ih =>
    intro hv
    simp only [List.foldl_cons]
    rcases List.mem_cons.mp hv with h | h
    · subst h
      exact le_trans (le_max_right a v.magnitude) (le_foldl_max rest _)
    · exact ih (max a w.magnitude) h

theorem foldl_max_attained (l : List GradientVoxel) (a : ℝ) :
    l.foldl (fun m w => max m w.magnitude) a = a ∨
      ∃ v ∈ l, l.foldl (fun m w => max m w.magnitude) a = v.magnitude := by
  induction l generalizing a with
  | nil => exact Or.inl rfl
  | cons w rest ih =>
    simp only [List.foldl_cons]
    rcases ih (max a w.magnitude) with h | ⟨v, hv, he⟩
    · rcases max_choice a w.magnitude with hm | hm
      · exact Or.inl (by rw [h, hm])
      · exact Or.inr ⟨w, List.mem_cons_self w rest, by rw [h, hm]⟩
    · exact Or.inr ⟨v, List.mem_cons_of_mem w hv, he⟩

theorem foldl_min_le (l : List GradientVoxel) (a : ℝ) :
    l.foldl (fun m w => min m w.magnitude) a ≤ a := by
  induction l generalizing a with
  | nil => exact le_refl a
  | cons v rest ih =>
    simp only [List.foldl_cons]
    exact le_trans (ih (min a v.magnitude)) (min_le_left a v.magnitude)

theorem foldl_min_le_mem (l : List GradientVoxel) (a : ℝ) (v : GradientVoxel) :
    v ∈ l → l.foldl (fun m w => min m w.magnitude) a ≤ v.magnitude := by
  induction l generalizing a with
  | nil => intro hv; cases hv
  | cons w rest ih =>
    intro hv
    simp only [List.foldl_cons]
    rcases List.mem_cons.mp hv with h | h
    · subst h
      exact le_trans (foldl_min_le rest _) (min_le_right a v.magnitude)
    · exact ih (min a w.magnitude) h

theorem foldl_min_attained (l : List GradientVoxel) (a : ℝ) :
    l.foldl (fun m w => min m w.magnitude) a = a ∨
      ∃ v ∈ l, l.foldl (fun m w => min m w.magnitude) a = v.magnitude := by
  induction l generalizing a with
  | nil => exact Or.inl rfl
  | cons w rest ih =>
    simp only [List.foldl_cons]
    rcases ih (min a w.magnitude) with h | ⟨v, hv, he⟩
    · rcases min_choice a w.magnitude with hm | hm
      · exact Or.inl (by rw [h, hm])
      · exact Or.inr ⟨w, List.mem_cons_self w rest, by rw [h, hm]⟩
    · exact Or.inr ⟨v, List.mem_cons_of_mem w hv, he⟩

theorem computeMaxMagnitude_ge (l : List GradientVoxel) (v : GradientVoxel) (hv : v ∈ l) :
    v.magnitude ≤ computeMaxMagnitude l := by
  cases l with
  | nil => cases hv
  | cons w rest =>
    rw [computeMaxMagnitude]
    rcases List.mem_cons.mp hv with h | h
    · subst h
      exact le_foldl_max rest v.magnitude
    · exact mem_le_foldl_max rest w.magnitude v h

theorem computeMaxMagnitude_attained (l : List GradientVoxel) (h : l ≠ []) :
    ∃ v ∈ l, computeMaxMagnitude l = v.magnitude := by
  cases l with
  | nil => exact absurd rfl h
  | cons w rest =>
    rw [computeMaxMagnitude]
    rcases foldl_max_attained rest w.magnitude with he | ⟨v, hv, he⟩
    · exact ⟨w, List.mem_cons_self w rest, he⟩
    · exact ⟨v, List.mem_cons_of_mem w hv, he⟩

theorem computeMinMagnitude_le (l : List GradientVoxel) (v : GradientVoxel) (hv : v ∈ l) :
    computeMinMagnitude l ≤ v.magnitude := by
  cases l with
  | nil => cases hv
  | cons w rest =>
    rw [computeMinMagnitude]
    rcases List.mem_cons.mp hv with h | h
    · subst h
      exact foldl_min_le rest v.magnitude
    · exact foldl_min_le_mem rest w.magnitude v h

theorem computeMinMagnitude_attained (l : List GradientVoxel) (h : l ≠ []) :
    ∃ v ∈ l, computeMinMagnitude l = v.magnitude := by
  cases l with
  | nil => exact absurd rfl h
  | cons w rest =>
    rw [computeMinMagnitude]
    rcases foldl_min_attained rest w.magnitude with he | ⟨v, hv, he⟩
    · exact ⟨w, List.mem_cons_self w rest, he⟩
    · exact ⟨v, List.mem_cons_of_mem w hv, he⟩

theorem volX3_dims : volX3.dims = ⟨3, 3, 3⟩ := rfl

theorem volX5_dims : volX5.dims = ⟨5, 5, 5⟩ := rfl

theorem gv3_g_111 : gv3.getGradient 1 1 1 = ⟨⟨1, 0, 0⟩, 1⟩ := by
  rw [show gv3 = GradientVolume.ofVolume volX3 from rfl,
    getGradient_ofVolume volX3 1 1 1 (by norm_num) (by norm_num [volX3_dims])
      (by norm_num) (by norm_num [volX3_dims]) (by norm_num) (by norm_num [volX3_dims]),
    if_pos (by norm_num [interiorCell, volX3_dims])]
  rw [centralDifferenceVoxel]
  simp only [volX3, GradientVoxel.mk.injEq, Vec3.mk.injEq, Vec3.length]
  norm_num

theorem gv3_g_011 : gv3.getGradient 0 1 1 = zeroVoxel := by
  rw [show gv3 = GradientVolume.ofVolume volX3 from rfl,
    getGradient_ofVolume volX3 0 1 1 (by norm_num) (by norm_num [volX3_dims])
      (by norm_num) (by norm_num [volX3_dims]) (by norm_num) (by norm_num [volX3_dims]),
    if_neg (by norm_num [interiorCell, volX3_dims])]

theorem gv3_g_211 : gv3.getGradient 2 1 1 = zeroVoxel := by
  rw [show gv3 = GradientVolume.ofVolume volX3 from rfl,
    getGradient_ofVolume volX3 2 1 1 (by norm_num) (by norm_num [volX3_dims])
      (by norm_num) (by norm_num [volX3_dims]) (by norm_num) (by norm_num [volX3_dims]),
    if_neg (by norm_num [interiorCell, volX3_dims])]

theorem gv3_data_length : gv3.m_data.length = 27 := by
  rw [show gv3 = GradientVolume.ofVolume volX3 from rfl, GradientVolume.ofVolume]
  rw [computeGradientVolume_length]
  decide

theorem gv5_data_length : gv5.m_data.length = 125 := by
  rw [show gv5 = GradientVolume.ofVolume volX5 from rfl, GradientVolume.ofVolume]
  rw [computeGradientVolume_length]
  decide

theorem ofVolume_m_data (vol : Volume) :
    (GradientVolume.ofVolume vol).m_data = computeGradientVolume vol := rfl

theorem ofVolume_m_dim (vol : Volume) :
    (GradientVolume.ofVolume vol).m_dim = vol.dims := rfl

theorem ofVolume_m_minMagnitude (vol : Volume) :
    (GradientVolume.ofVolume vol).m_minMagnitude
      = computeMinMagnitude (computeGradientVolume vol) := rfl

theorem ofVolume_m_maxMagnitude (vol : Volume) :
    (GradientVolume.ofVolume vol).m_maxMagnitude
      = computeMaxMagnitude (computeGradientVolume vol) := rfl

theorem gv3_dim : gv3.m_dim = ⟨3, 3, 3⟩ := rfl

theorem gv5_dim : gv5.m_dim = ⟨5, 5, 5⟩ := rfl

theorem floor_int_add_half (x : ℤ) : ⌊(x : ℝ) + 1 / 2⌋ = x := by
  rw [Int.floor_eq_iff]
  exact ⟨by linarith, by linarith⟩

/-! ### Claim theorems -/

/-- Claim C9: for every coordinate, sampling with `Cubic` mode returns exactly the
same `GradientVoxel` as sampling with `Linear` mode (the `Cubic` switch branch
calls `getGradientLinearInterpolate`, lines 89-92). -/
theorem c9_cubic_alias_linear (self : GradientVolume) (coord : Vec3) :
    self.getGradientInterpolate InterpolationMode.Cubic coord
      = self.getGradientInterpolate InterpolationMode.Linear coord := rfl

/-- Claim C4 counterexample: `linearInterpolate` does not clamp its factor.  At
`t = 2` (with `g0` the zero voxel and `g1` of magnitude 1) the result differs
from the `t = 1` result, refuting the claim that for `t > 1` the blend equals
the `t = 1` blend. -/
theorem c4_clamp_counterexample :
    GradientVolume.linearInterpolate zeroVoxel ⟨⟨0, 0, 0⟩, 1⟩ 2
      ≠ GradientVolume.linearInterpolate zeroVoxel ⟨⟨0, 0, 0⟩, 1⟩ 1 := by
  intro h
  have hm := congrArg GradientVoxel.magnitude h
  simp only [GradientVolume.linearInterpolate, zeroVoxel] at hm
  norm_num at hm

/-- Claim C4 (amended): `linearInterpolate(g0, g1, 0) = g0` and
`linearInterpolate(g0, g1, 1) = g1` on both the direction and the magnitude
channel; the factor is used as passed (no clamping), so factors outside `[0,1]`
extrapolate linearly instead of reproducing the endpoint results. -/
theorem c4_lerp_endpoints (g0 g1 : GradientVoxel) :
    GradientVolume.linearInterpolate g0 g1 0 = g0 ∧
      GradientVolume.linearInterpolate g0 g1 1 = g1 := by
  cases g0 with
  | mk d0 m0 =>
    cases g1 with
    | mk d1 m1 =>
      cases d0
      cases d1
      simp only [GradientVolume.linearInterpolate, Vec3.add_def, Vec3.sub_def,
        Vec3.smul_def, GradientVoxel.mk.injEq, Vec3.mk.injEq]
      exact ⟨⟨⟨by ring, by ring, by ring⟩, by ring⟩, ⟨⟨by ring, by ring, by ring⟩, by ring⟩⟩

/-- Claim C7: nearest-neighbor sampling returns the zero voxel whenever any axis of
`coord` is `< 0` or `≥ dim` on that axis, and at any integer lattice coordinate
inside the volume it returns exactly the stored voxel at that cell. -/
theorem c7_nearest_neighbor_contract (self : GradientVolume) :
    (∀ coord : Vec3, sampleOutOfRange self.m_dim coord →
        self.getGradientNearestNeighbor coord = zeroVoxel) ∧
      (∀ x y z : ℤ, 0 ≤ x → x < self.m_dim.x → 0 ≤ y → y < self.m_dim.y →
        0 ≤ z → z < self.m_dim.z →
        self.getGradientNearestNeighbor ⟨(x : ℝ), (y : ℝ), (z : ℝ)⟩
          = self.getGradient x y z) := by
  constructor
  · intro coord h
    rw [GradientVolume.getGradientNearestNeighbor, if_pos h]
  · intro x y z hx0 hx1 hy0 hy1 hz0 hz1
    have hguard : ¬ sampleOutOfRange self.m_dim ⟨(x : ℝ), (y : ℝ), (z : ℝ)⟩ := by
      simp only [sampleOutOfRange, not_or, not_lt, not_le]
      refine ⟨by exact_mod_cast hx0, by exact_mod_cast hy0, by exact_mod_cast hz0,
        by exact_mod_cast hx1, by exact_mod_cast hy1, by exact_mod_cast hz1⟩
    rw [GradientVolume.getGradientNearestNeighbor, if_neg hguard]
    rw [floor_int_add_half, floor_int_add_half, floor_int_add_half]

/-- Claim C7 witness: in the concrete 3×3×3 gradient volume, coordinate `(-1,0,0)` is
out of range and samples to the zero voxel, and lattice coordinate `(1,1,1)`
samples to the stored voxel of cell `(1,1,1)`. -/
theorem c7_nearest_neighbor_contract_witness :
    gv3.getGradientNearestNeighbor ⟨-1, 0, 0⟩ = zeroVoxel ∧
      gv3.getGradientNearestNeighbor ⟨1, 1, 1⟩ = gv3.getGradient 1 1 1 := by
  constructor
  · exact (c7_nearest_neighbor_contract gv3).1 ⟨-1, 0, 0⟩ (by norm_num [sampleOutOfRange])
  · have h := (c7_nearest_neighbor_contract gv3).2 1 1 1 (by norm_num)
      (by rw [gv3_dim]; norm_num) (by norm_num) (by rw [gv3_dim]; norm_num)
      (by norm_num) (by rw [gv3_dim]; norm_num)
    simpa using h

/-- Claim C3 (code bug): coordinate `(4.9, 4.9, 4.9)` in the 5×5×5 volume passes the
nearest-neighbor bounds check, yet round-half-up sends every axis to 5, and the
resulting unchecked fetch addresses linear index 155 of the 125-element array —
out of bounds, contradicting the claimed in-range guarantee. -/
theorem c3_nearest_neighbor_round_out_of_bounds :
    ¬ sampleOutOfRange gv5.m_dim ⟨49 / 10, 49 / 10, 49 / 10⟩ ∧
      gv5.getGradientNearestNeighbor ⟨49 / 10, 49 / 10, 49 / 10⟩
        = gv5.getGradient 5 5 5 ∧
      gv5.gradientIndex 5 5 5 = 155 ∧
      gv5.m_data.length = 125 ∧
      ¬ ((155 : ℤ).toNat < gv5.m_data.length) := by
  have hguard : ¬ sampleOutOfRange gv5.m_dim ⟨49 / 10, 49 / 10, 49 / 10⟩ := by
    rw [gv5_dim]
    norm_num [sampleOutOfRange]
  have h5 : ⌊(49 / 10 : ℝ) + 1 / 2⌋ = 5 := by
    rw [Int.floor_eq_iff]
    norm_num
  refine ⟨hguard, ?_, by rw [GradientVolume.gradientIndex, gv5_dim]; norm_num,
    gv5_data_length, by rw [gv5_data_length]; decide⟩
  rw [GradientVolume.getGradientNearestNeighbor, if_neg hguard]
  rw [show (⟨49 / 10, 49 / 10, 49 / 10⟩ : Vec3).x = 49 / 10 from rfl,
    show (⟨49 / 10, 49 / 10, 49 / 10⟩ : Vec3).y = 49 / 10 from rfl,
    show (⟨49 / 10, 49 / 10, 49 / 10⟩ : Vec3).z = 49 / 10 from rfl, h5]

/-- Claim C1 (code bug): `getGradientLinearInterpolate` contains no bounds guard.  At
coordinate `(4.9, 4.9, 4.9)` in the 5×5×5 volume its eight corner fetches
address linear indices `124,...,155`, seven of which lie at or beyond the
125-element array — the claimed zero-voxel guard and the claimed in-bounds
guarantee of the corner fetches both fail. -/
theorem c1_linear_mode_missing_bounds_guard :
    gv5.trilinearCornerIndices ⟨49 / 10, 49 / 10, 49 / 10⟩
      = [124, 149, 129, 154, 125, 150, 130, 155] ∧
      gv5.m_data.length = 125 ∧
      ¬ ((155 : ℤ).toNat < gv5.m_data.length) := by
  have hf : ⌊(49 / 10 : ℝ)⌋ = 4 := by
    rw [Int.floor_eq_iff]
    norm_num
  have hc : ⌈(49 / 10 : ℝ)⌉ = 5 := by
    rw [Int.ceil_eq_iff]
    norm_num
  refine ⟨?_, gv5_data_length, by rw [gv5_data_length]; decide⟩
  rw [GradientVolume.trilinearCornerIndices]
  simp only [show (⟨49 / 10, 49 / 10, 49 / 10⟩ : Vec3).x = 49 / 10 from rfl,
    show (⟨49 / 10, 49 / 10, 49 / 10⟩ : Vec3).y = 49 / 10 from rfl,
    show (⟨49 / 10, 49 / 10, 49 / 10⟩ : Vec3).z = 49 / 10 from rfl, hf, hc,
    GradientVolume.gradientIndex, gv5_dim]
  norm_num

/-- Claim C5: construction allocates exactly `dim.x*dim.y*dim.z` voxels at linear
index `x + dim.x*(y + dim.y*z)`; every interior cell stores the symmetric
central-difference direction with magnitude equal to the Euclidean norm of that
direction; every boundary cell keeps the default zero voxel; and if any axis of
`dim` is `≤ 2` the entire field is zero. -/
theorem c5_construction (vol : Volume) :
    ((GradientVolume.ofVolume vol).m_data.length
        = (vol.dims.x * vol.dims.y * vol.dims.z).toNat) ∧
      (∀ x y z : ℤ, 1 ≤ x → x < vol.dims.x - 1 → 1 ≤ y → y < vol.dims.y - 1 →
        1 ≤ z → z < vol.dims.z - 1 →
        (GradientVolume.ofVolume vol).m_data.getD
            (x + vol.dims.x * (y + vol.dims.y * z)).toNat zeroVoxel
          = ⟨⟨(vol.getVoxel (x + 1) y z - vol.getVoxel (x - 1) y z) / 2,
              (vol.getVoxel x (y + 1) z - vol.getVoxel x (y - 1) z) / 2,
              (vol.getVoxel x y (z + 1) - vol.getVoxel x y (z - 1)) / 2⟩,
             Vec3.length ⟨(vol.getVoxel (x + 1) y z - vol.getVoxel (x - 1) y z) / 2,
              (vol.getVoxel x (y + 1) z - vol.getVoxel x (y - 1) z) / 2,
              (vol.getVoxel x y (z + 1) - vol.getVoxel x y (z - 1)) / 2⟩⟩) ∧
      (∀ x y z : ℤ, 0 ≤ x → x < vol.dims.x → 0 ≤ y → y < vol.dims.y →
        0 ≤ z → z < vol.dims.z →
        (x = 0 ∨ x = vol.dims.x - 1 ∨ y = 0 ∨ y = vol.dims.y - 1 ∨
          z = 0 ∨ z = vol.dims.z - 1) →
        (GradientVolume.ofVolume vol).m_data.getD
            (x + vol.dims.x * (y + vol.dims.y * z)).toNat zeroVoxel = zeroVoxel) ∧
      ((vol.dims.x ≤ 2 ∨ vol.dims.y ≤ 2 ∨ vol.dims.z ≤ 2) →
        ∀ v ∈ (GradientVolume.ofVolume vol).m_data, v = zeroVoxel) := by
  refine ⟨?_, ?_, ?_, ?_⟩
  · rw [ofVolume_m_data, computeGradientVolume_length]
  · intro x y z hx1 hx2 hy1 hy2 hz1 hz2
    have hint : interiorCell vol.dims x y z := ⟨hx1, hx2, hy1, hy2, hz1, hz2⟩
    rw [ofVolume_m_data,
      computeGradientVolume_getD vol x y z (by omega) (by omega) (by omega) (by omega)
        (by omega) (by omega),
      if_pos hint]
    rfl
  · intro x y z hx0 hx1 hy0 hy1 hz0 hz1 hb
    rw [ofVolume_m_data, computeGradientVolume_getD vol x y z hx0 hx1 hy0 hy1 hz0 hz1,
      if_neg ?_]
    intro hint
    rcases hint with ⟨i1, i2, i3, i4, i5, i6⟩
    omega
  · intro hdeg v hv
    rw [ofVolume_m_data] at hv
    rcases computeGradientVolume_mem vol v hv with ⟨x, y, z, hint, -⟩ | hz
    · rcases hint with ⟨i1, i2, i3, i4, i5, i6⟩
      omega
    · exact hz

/-- Claim C5 witness: in the 3×3×3 volume with scalar field `V(x,y,z) = x`, the array
has 27 entries and the interior cell `(1,1,1)` (linear index 13) stores
direction `(1,0,0)` with magnitude `‖(1,0,0)‖`. -/
theorem c5_construction_witness :
    (GradientVolume.ofVolume volX3).m_data.length = 27 ∧
      (GradientVolume.ofVolume volX3).m_data.getD 13 zeroVoxel
        = ⟨⟨1, 0, 0⟩, Vec3.length ⟨1, 0, 0⟩⟩ := by
  constructor
  · rw [(c5_construction volX3).1]
    decide
  · have h := (c5_construction volX3).2.1 1 1 1 (by norm_num)
      (by rw [volX3_dims]; norm_num) (by norm_num) (by rw [volX3_dims]; norm_num)
      (by norm_num) (by rw [volX3_dims]; norm_num)
    norm_num [volX3_dims, volX3] at h
    exact h

/-- Claim C10: every voxel returned by nearest-neighbor sampling on a constructed
gradient volume has `magnitude = ‖dir‖`, whether the query is out of range, hits
an untouched boundary cell, or hits an interior cell — provided the rounded
indices used for the fetch are within bounds whenever the bounds check passes. -/
theorem c10_nn_invariant (vol : Volume) (coord : Vec3)
    (h : ¬ sampleOutOfRange vol.dims coord →
      0 ≤ ⌊coord.x + 1 / 2⌋ ∧ ⌊coord.x + 1 / 2⌋ < vol.dims.x ∧
      0 ≤ ⌊coord.y + 1 / 2⌋ ∧ ⌊coord.y + 1 / 2⌋ < vol.dims.y ∧
      0 ≤ ⌊coord.z + 1 / 2⌋ ∧ ⌊coord.z + 1 / 2⌋ < vol.dims.z) :
    ((GradientVolume.ofVolume vol).getGradientNearestNeighbor coord).magnitude
      = Vec3.length ((GradientVolume.ofVolume vol).getGradientNearestNeighbor coord).dir := by
  rw [GradientVolume.getGradientNearestNeighbor]
  by_cases hg : sampleOutOfRange (GradientVolume.ofVolume vol).m_dim coord
  · rw [if_pos hg, zeroVoxel, Vec3.length_zero]
  · rw [if_neg hg]
    have hg2 : ¬ sampleOutOfRange vol.dims coord := by
      rw [ofVolume_m_dim] at hg
      exact hg
    obtain ⟨b1, b2, b3, b4, b5, b6⟩ := h hg2
    rw [getGradient_ofVolume vol _ _ _ b1 b2 b3 b4 b5 b6]
    by_cases hint : interiorCell vol.dims ⌊coord.x + 1 / 2⌋ ⌊coord.y + 1 / 2⌋ ⌊coord.z + 1 / 2⌋
    · rw [if_pos hint]
      rfl
    · rw [if_neg hint, zeroVoxel, Vec3.length_zero]

/-- Claim C10 witness: nearest-neighbor sampling the constructed 3×3×3 gradient
volume at `(1,1,1)` returns a voxel whose magnitude is the norm of its
direction. -/
theorem c10_nn_invariant_witness :
    ((GradientVolume.ofVolume volX3).getGradientNearestNeighbor ⟨1, 1, 1⟩).magnitude
      = Vec3.length
          ((GradientVolume.ofVolume volX3).getGradientNearestNeighbor ⟨1, 1, 1⟩).dir := by
  have hfl : ⌊(1 : ℝ) + 1 / 2⌋ = 1 := by
    rw [Int.floor_eq_iff]
    norm_num
  exact c10_nn_invariant volX3 ⟨1, 1, 1⟩ (by
    intro _
    rw [volX3_dims]
    norm_num [hfl])

/-- Claim C8: for a source volume with positive extents, the cached statistics satisfy
`minMagnitude ≤ maxMagnitude` and equal the true minimum and maximum magnitude
over the full stored array (boundary zeros included). -/
theorem c8_min_max (vol : Volume)
    (h : 0 < vol.dims.x ∧ 0 < vol.dims.y ∧ 0 < vol.dims.z) :
    (GradientVolume.ofVolume vol).m_minMagnitude
        ≤ (GradientVolume.ofVolume vol).m_maxMagnitude ∧
      (∀ v ∈ (GradientVolume.ofVolume vol).m_data,
        (GradientVolume.ofVolume vol).m_minMagnitude ≤ v.magnitude ∧
          v.magnitude ≤ (GradientVolume.ofVolume vol).m_maxMagnitude) ∧
      (∃ v ∈ (GradientVolume.ofVolume vol).m_data,
        (GradientVolume.ofVolume vol).m_minMagnitude = v.magnitude) ∧
      (∃ v ∈ (GradientVolume.ofVolume vol).m_data,
        (GradientVolume.ofVolume vol).m_maxMagnitude = v.magnitude) := by
  obtain ⟨hx, hy, hz⟩ := h
  have hne : computeGradientVolume vol ≠ [] := by
    intro hnil
    have hlen := computeGradientVolume_length vol
    rw [hnil] at hlen
    have hpos : 0 < vol.dims.x * vol.dims.y * vol.dims.z := by positivity
    have : (vol.dims.x * vol.dims.y * vol.dims.z).toNat ≠ 0 := by
      intro h0
      rw [Int.toNat_eq_zero] at h0
      omega
    exact this (by rw [← hlen]; rfl)
  rw [ofVolume_m_data, ofVolume_m_minMagnitude, ofVolume_m_maxMagnitude]
  obtain ⟨vmin, hvmin, hmin⟩ := computeMinMagnitude_attained _ hne
  obtain ⟨vmax, hvmax, hmax⟩ := computeMaxMagnitude_attained _ hne
  refine ⟨?_, ?_, ⟨vmin, hvmin, hmin⟩, ⟨vmax, hvmax, hmax⟩⟩
  · rw [hmin]
    exact computeMaxMagnitude_ge _ vmin hvmin
  · intro v hv
    exact ⟨computeMinMagnitude_le _ v hv, computeMaxMagnitude_ge _ v hv⟩

/-- Claim C8 witness: the 3×3×3 gradient volume built from `V(x,y,z)=x` has positive
extents, so its cached minimum magnitude is at most its cached maximum. -/
theorem c8_min_max_witness :
    (GradientVolume.ofVolume volX3).m_minMagnitude
      ≤ (GradientVolume.ofVolume volX3).m_maxMagnitude :=
  (c8_min_max volX3 (by decide)).1

/-- Claim C2 (code bug): at the in-cube coordinate `(0.5, 1, 1)` of the 3×3×3 gradient
volume the corner voxels along x are the zero voxel (at `(0,1,1)`) and
`((1,0,0), 1)` (at `(1,1,1)`), so the spec's three-pass trilinear interpolation
with `fx = 0.5` would yield `((0.5,0,0), 0.5)`; the code instead blends with the
reciprocal-distance factor `1/0.5 = 2` and returns `((2,0,0), 2)`. -/
theorem c2_linear_mode_not_trilinear :
    gv3.getGradientLinearInterpolate ⟨1 / 2, 1, 1⟩ = ⟨⟨2, 0, 0⟩, 2⟩ ∧
      gv3.getGradient 0 1 1 = zeroVoxel ∧
      gv3.getGradient 1 1 1 = ⟨⟨1, 0, 0⟩, 1⟩ := by
  have hf0 : ⌊(1 / 2 : ℝ)⌋ = 0 := by
    rw [Int.floor_eq_iff]
    norm_num
  have hc0 : ⌈(1 / 2 : ℝ)⌉ = 1 := by
    rw [Int.ceil_eq_iff]
    norm_num
  have hf1 : ⌊(1 : ℝ)⌋ = 1 := Int.floor_one
  have hc1 : ⌈(1 : ℝ)⌉ = 1 := Int.ceil_one
  have hd : Vec3.dist ⟨1 / 2, 1, 1⟩ ⟨((0 : ℤ) : ℝ), ((1 : ℤ) : ℝ), ((1 : ℤ) : ℝ)⟩
      = 1 / 2 := by
    rw [Vec3.dist_eval]
    exact sqrt_eq_of_sq _ _ (by norm_num) (by push_cast; ring)
  refine ⟨?_, gv3_g_011, gv3_g_111⟩
  rw [GradientVolume.getGradientLinearInterpolate]
  simp only [show (⟨1 / 2, 1, 1⟩ : Vec3).x = 1 / 2 from rfl,
    show (⟨1 / 2, 1, 1⟩ : Vec3).y = 1 from rfl,
    show (⟨1 / 2, 1, 1⟩ : Vec3).z = 1 from rfl,
    hf0, hc0, hf1, hc1, gv3_g_011, gv3_g_111, hd]
  simp only [GradientVolume.linearInterpolate, zeroVoxel, Vec3.add_def, Vec3.sub_def,
    Vec3.smul_def]
  norm_num [GradientVoxel.mk.injEq, Vec3.mk.injEq]

/-- Evaluation of the Linear-mode sampler of the 3×3×3 gradient volume at
`(1 + t, 1, 1)` for `0 < t < 1`: the two x-adjacent corner voxels are
`((1,0,0), 1)` and the zero voxel, and the reciprocal-distance factor `1/t`
gives sampled magnitude `1 - 1/t`, which blows up as `t` approaches zero. -/
theorem gv3_sample_near_lattice (t : ℝ) (h0 : 0 < t) (h1 : t < 1) :
    (gv3.getGradientLinearInterpolate ⟨1 + t, 1, 1⟩).magnitude = 1 - 1 / t := by
  have hfx : ⌊(1 : ℝ) + t⌋ = 1 := by
    rw [Int.floor_eq_iff]
    constructor
    · push_cast
      linarith
    · push_cast
      linarith
  have hcx : ⌈(1 : ℝ) + t⌉ = 2 := by
    rw [Int.ceil_eq_iff]
    constructor
    · push_cast
      linarith
    · push_cast
      linarith
  have hf1 : ⌊(1 : ℝ)⌋ = 1 := Int.floor_one
  have hc1 : ⌈(1 : ℝ)⌉ = 1 := Int.ceil_one
  have hd : Vec3.dist ⟨1 + t, 1, 1⟩ ⟨((1 : ℤ) : ℝ), ((1 : ℤ) : ℝ), ((1 : ℤ) : ℝ)⟩ = t := by
    rw [Vec3.dist_eval]
    exact sqrt_eq_of_sq _ _ h0.le (by push_cast; ring)
  rw [GradientVolume.getGradientLinearInterpolate]
  simp only [show (⟨1 + t, 1, 1⟩ : Vec3).x = 1 + t from rfl,
    show (⟨1 + t, 1, 1⟩ : Vec3).y = 1 from rfl,
    show (⟨1 + t, 1, 1⟩ : Vec3).z = 1 from rfl,
    hfx, hcx, hf1, hc1, gv3_g_111, gv3_g_211, hd]
  simp only [GradientVolume.linearInterpolate, zeroVoxel, Vec3.add_def, Vec3.sub_def,
    Vec3.smul_def]
  ring

/-- Claim C6 (code bug): the Linear-mode sampler of the 3×3×3 gradient volume is not
continuous at the interior lattice point `(1,1,1)`: along the approach sequence
`(1 + 1/(n+2), 1, 1) → (1,1,1)` the sampled magnitude tends to `-∞`, hence does
not converge to the stored voxel's magnitude 1. -/
theorem c6_discontinuous_at_lattice :
    Filter.Tendsto (fun n : ℕ => (1 : ℝ) + 1 / ((n : ℝ) + 2)) Filter.atTop (nhds 1) ∧
      Filter.Tendsto
        (fun n : ℕ =>
          (gv3.getGradientLinearInterpolate ⟨1 + 1 / ((n : ℝ) + 2), 1, 1⟩).magnitude)
        Filter.atTop Filter.atBot ∧
      ¬ Filter.Tendsto
        (fun n : ℕ =>
          (gv3.getGradientLinearInterpolate ⟨1 + 1 / ((n : ℝ) + 2), 1, 1⟩).magnitude)
        Filter.atTop (nhds ((gv3.getGradient 1 1 1).magnitude)) ∧
      (gv3.getGradient 1 1 1).magnitude = 1 := by
  have hshift : Filter.Tendsto (fun n : ℕ => ((n : ℝ) + 2)) Filter.atTop Filter.atTop :=
    Filter.tendsto_atTop_add_const_right Filter.atTop 2 tendsto_natCast_atTop_atTop
  have happrox : Filter.Tendsto (fun n : ℕ => (1 : ℝ) + 1 / ((n : ℝ) + 2))
      Filter.atTop (nhds 1) := by
    have hz : Filter.Tendsto (fun n : ℕ => 1 / ((n : ℝ) + 2)) Filter.atTop (nhds 0) := by
      simpa [one_div] using hshift.inv_tendsto_atTop
    simpa using hz.const_add 1
  have hev : ∀ n : ℕ,
      (gv3.getGradientLinearInterpolate ⟨1 + 1 / ((n : ℝ) + 2), 1, 1⟩).magnitude
        = 1 - ((n : ℝ) + 2) := by
    intro n
    have hn2 : (0 : ℝ) < (n : ℝ) + 2 := by positivity
    have ht0 : (0 : ℝ) < 1 / ((n : ℝ) + 2) := by positivity
    have ht1 : 1 / ((n : ℝ) + 2) < 1 := by
      rw [div_lt_one hn2]
      have := Nat.cast_nonneg (α := ℝ) n
      linarith
    rw [gv3_sample_near_lattice _ ht0 ht1, one_div_one_div]
  have hdiv : Filter.Tendsto
      (fun n : ℕ =>
        (gv3.getGradientLinearInterpolate ⟨1 + 1 / ((n : ℝ) + 2), 1, 1⟩).magnitude)
      Filter.atTop Filter.atBot := by
    have hneg : Filter.Tendsto (fun n : ℕ => -((n : ℝ) + 2)) Filter.atTop Filter.atBot :=
      Filter.tendsto_neg_atBot_iff.mpr hshift
    have hsub : Filter.Tendsto (fun n : ℕ => 1 - ((n : ℝ) + 2)) Filter.atTop Filter.atBot := by
      have := Filter.tendsto_atBot_add_const_left Filter.atTop 1 hneg
      simpa [sub_eq_add_neg] using this
    exact hsub.congr fun n => (hev n).symm
  have hmag : (gv3.getGradient 1 1 1).magnitude = 1 := by
    rw [gv3_g_111]
  refine ⟨happrox, hdiv, ?_, hmag⟩
  rw [hmag]
  exact hdiv.not_tendsto ((disjoint_nhds_atBot (1 : ℝ)).symm)

end VolVis
